import Mathlib

/-!
Verification of the SWAPI demo client (`src/swapi.js` and its refactored
variants in `src/unnamed/`): a shallow embedding of the cached Resource
Fetcher, the Orchestrator (`fetchAndDisplayStarWarsData`) and the Display
Formatter functions, together with theorems settling the spec's claims.

JavaScript values returned by `JSON.parse` are modelled by the inductive
type `Json`; JS numbers are modelled by `Int` (every numeric literal in
the program and its payloads is integral).  The network and the remote
service are modelled by an oracle `net : String → NetResponse` giving, for
each resource path, the status code and the `JSON.parse` outcome of the
buffered response body (or a connection error / timeout).
-/

namespace Swapi

/-- Parsed JSON values (the results of `JSON.parse`). -/
inductive Json where
  | null
  | bool (b : Bool)
  | num (n : Int)
  | str (s : String)
  | arr (elems : List Json)
  | obj (fields : List (String × Json))

/-- JavaScript truthiness of a parsed JSON value: `null`, `false`, `0` and
`""` are falsy; every object and array (even empty) is truthy.  (`NaN`,
the only other falsy JS value, is not representable in JSON.) -/
def Json.truthy : Json → Bool
  | .null => false
  | .bool b => b
  | .num n => n != 0
  | .str s => s != ""
  | .arr _ => true
  | .obj _ => true

/-- JS property access `j[k]` on a parsed JSON value: `none` models
`undefined` (missing field or non-object receiver). -/
def Json.get : Json → String → Option Json
  | .obj fields, k => fields.lookup k
  | _, _ => none

/-- JS property store on a string-keyed association list: overwrites the
entry when the key is present, appends it otherwise. -/
def storeAssoc (l : List (String × Json)) (k : String) (v : Json) : List (String × Json) :=
  if l.any (fun e => e.1 = k) then
    l.map (fun e => if e.1 = k then (k, v) else e)
  else
    l ++ [(k, v)]

/-- JS property assignment `j[k] = v` on an object: overwrites the field
when present, appends it otherwise; no effect on non-objects. -/
def Json.set (j : Json) (k : String) (v : Json) : Json :=
  match j with
  | .obj fields => .obj (storeAssoc fields k v)
  | other => other

mutual

/-- Models `JSON.stringify` on parsed values (string escaping is not
modelled; only lengths of stringified payloads feed the byte counter, and
no claim depends on their exact values). -/
def Json.stringify : Json → String
  | .null => "null"
  | .bool true => "true"
  | .bool false => "false"
  | .num n => toString n
  | .str s => "\"" ++ s ++ "\""
  | .arr elems => "[" ++ stringifyElems elems ++ "]"
  | .obj fields => "\x7b" ++ stringifyFields fields ++ "\x7d"

/-- Comma-joined stringification of array elements. -/
def stringifyElems : List Json → String
  | [] => ""
  | [x] => Json.stringify x
  | x :: y :: rest => Json.stringify x ++ "," ++ stringifyElems (y :: rest)

/-- Comma-joined stringification of object fields. -/
def stringifyFields : List (String × Json) → String
  | [] => ""
  | [(k, v)] => "\"" ++ k ++ "\":" ++ Json.stringify v
  | (k, v) :: e :: rest =>
      "\"" ++ k ++ "\":" ++ Json.stringify v ++ "," ++ stringifyFields (e :: rest)

end

mutual

/-- JS `String(...)` coercion, as used by `parseInt` and console display.
Arrays display as their comma-joined elements, objects as
`[object Object]`. -/
def jsToString : Json → String
  | .null => "null"
  | .bool true => "true"
  | .bool false => "false"
  | .num n => toString n
  | .str s => s
  | .arr elems => jsToStringElems elems
  | .obj _ => "[object Object]"

/-- Comma-joined JS display of array elements (`Array.prototype.toString`). -/
def jsToStringElems : List Json → String
  | [] => ""
  | [x] => jsToString x
  | x :: y :: rest => jsToString x ++ "," ++ jsToStringElems (y :: rest)

end

/-- Value of a leading run of decimal digits; `none` when the run is
empty (which makes `parseInt` return `NaN`). -/
def digitsVal (cs : List Char) : Option Nat :=
  let ds := cs.takeWhile Char.isDigit
  if ds.isEmpty then none
  else some (ds.foldl (fun acc c => acc * 10 + (c.toNat - 48)) 0)

/-- Models JS `parseInt` on a string: skips leading spaces, accepts an
optional sign, then reads leading decimal digits; `none` models `NaN`. -/
def parseIntStr (s : String) : Option Int :=
  match s.toList.dropWhile (fun c => c = ' ') with
  | '-' :: rest => (digitsVal rest).map (fun n => -(n : Int))
  | '+' :: rest => (digitsVal rest).map (fun n => (n : Int))
  | rest => (digitsVal rest).map (fun n => (n : Int))

/-- `parseInt` applied to a JS value (property accesses yield
`Option Json`, with `none` for `undefined`; `parseInt(undefined)` parses
the string `"undefined"` and is `NaN`). -/
def jsParseInt (v : Option Json) : Option Int :=
  match v with
  | none => none
  | some j => parseIntStr (jsToString j)

/-- Numeric value of a decimal digit character. -/
def digitNat (c : Char) : Nat := c.toNat - 48

/-- Models `Date.parse` (via `new Date(s).getTime()`) on the ISO
`YYYY-MM-DD` date strings this service serves, up to a strictly monotone
re-encoding of the time value (`y*10000 + m*100 + d` instead of epoch
milliseconds — only the order of parsed dates matters to the program,
which compares and subtracts them).  Any other string is an invalid date
(`none` models `NaN`). -/
def jsDateParse (s : String) : Option Int :=
  match s.toList with
  | [y1, y2, y3, y4, h1, m1, m2, h2, d1, d2] =>
      if h1 = '-' ∧ h2 = '-' ∧ y1.isDigit ∧ y2.isDigit ∧ y3.isDigit ∧ y4.isDigit ∧
          m1.isDigit ∧ m2.isDigit ∧ d1.isDigit ∧ d2.isDigit then
        let y := ((digitNat y1 * 10 + digitNat y2) * 10 + digitNat y3) * 10 + digitNat y4
        let m := digitNat m1 * 10 + digitNat m2
        let d := digitNat d1 * 10 + digitNat d2
        if 1 ≤ m ∧ m ≤ 12 ∧ 1 ≤ d ∧ d ≤ 31 then
          some ((y * 10000 + m * 100 + d : Nat) : Int)
        else none
      else none
  | _ => none

/-- The time value of `new Date(film.release_date)`; `none` models an
invalid date (`NaN` time value). -/
def releaseDate (film : Json) : Option Int :=
  match film.get "release_date" with
  | some (.str s) => jsDateParse s
  | _ => none

/-! ### Program constants (from the top of `src/swapi.js`) -/

def HTTP_ERROR_THRESHOLD : Nat := 400
def MAX_STARSHIPS_DISPLAYED : Nat := 3
def MIN_POPULATION : Int := 1000000000
def MIN_DIAMETER : Int := 10000
def MAX_VEHICLE_CHARACTER_ID : Nat := 4

/-! ### Module state and the Resource Fetcher -/

/-- The module-level mutable state of `swapi.js` that the Fetcher and the
Orchestrator read or write: the cache (an object used as a string-keyed
map, modelled as an association list), and the process-wide counters. -/
structure ApiState where
  apiCache : List (String × Json)
  errorCount : Nat
  lastCharacterId : Nat
  apiCallCount : Nat
  totalDataSize : Nat

/-- The state at module load: `apiCache = {}`, `errorCount = 0`,
`lastCharacterId = 1`, `apiCallCount = 0`, `totalDataSize = 0`. -/
def initState : ApiState :=
  { apiCache := [], errorCount := 0, lastCharacterId := 1,
    apiCallCount := 0, totalDataSize := 0 }

/-- `apiCache[resourcePath]` — `none` models `undefined`. -/
def cacheLookup (cache : List (String × Json)) (resourcePath : String) : Option Json :=
  cache.lookup resourcePath

/-- `apiCache[resourcePath] = data` — overwrites an existing entry,
appends a new one otherwise. -/
def cacheStore (cache : List (String × Json)) (resourcePath : String) (data : Json) :
    List (String × Json) :=
  storeAssoc cache resourcePath data

/-- `isCached` from the refactored variant, identical to the guard
`if (apiCache[resourcePath])` of `src/swapi.js`: presence is decided by
JS truthiness of the stored value (`!!apiCache[resourcePath]`), with
`undefined` (absent key) falsy. -/
def isCached (s : ApiState) (resourcePath : String) : Bool :=
  match cacheLookup s.apiCache resourcePath with
  | some v => v.truthy
  | none => false

/-- The remote service's behaviour on one request, as observed through
the `https.get` callback: a reply carries the status code and the
`JSON.parse` outcome of the fully buffered body (`none` = malformed
JSON); `connError` models the request's `error` event; `timedOut` models
the request timeout firing. -/
inductive NetResponse where
  | reply (statusCode : Nat) (body : Option Json)
  | connError
  | timedOut

/-- The four failure kinds `fetchFromApi` can reject with. -/
inductive FetchError where
  | httpStatus (code : Nat)
  | parseError
  | connError
  | timeout
deriving Repr, DecidableEq

/-- `error.message` of each rejection, as logged by the Orchestrator's
catch handler. -/
def FetchError.message : FetchError → String
  | .httpStatus code => "Request failed with status code " ++ toString code
  | .parseError => "Unexpected token in JSON"
  | .connError => "network error"
  | .timeout => "Request timeout"

/-- Result of one `fetchFromApi(resourcePath)` call: the settled promise,
the module state after the call, and how many network requests the call
issued (0 on a cache hit, 1 otherwise). -/
structure FetchResult where
  outcome : Except FetchError Json
  state : ApiState
  networkCalls : Nat

/-- Shallow embedding of `fetchFromApi` (`src/swapi.js` lines 30-65).
On a truthy cache entry it resolves with the cached value and touches
nothing.  Otherwise one HTTPS GET is issued: status ≥ 400 increments
`errorCount` and rejects with an HTTP-status error; a successful status
buffers the body and `JSON.parse`s it — on success the value is stored
in the cache and resolved, on parse failure `errorCount` is incremented
and the call rejects; connection errors and timeouts also increment
`errorCount` and reject. -/
def fetchFromApi (net : String → NetResponse) (resourcePath : String) (s : ApiState) :
    FetchResult :=
  if isCached s resourcePath then
    { outcome := .ok ((cacheLookup s.apiCache resourcePath).getD .null),
      state := s, networkCalls := 0 }
  else
    match net resourcePath with
    | .reply statusCode body =>
        if HTTP_ERROR_THRESHOLD ≤ statusCode then
          { outcome := .error (.httpStatus statusCode),
            state := { s with errorCount := s.errorCount + 1 }, networkCalls := 1 }
        else
          match body with
          | some parsedData =>
              { outcome := .ok parsedData,
                state := { s with apiCache := cacheStore s.apiCache resourcePath parsedData },
                networkCalls := 1 }
          | none =>
              { outcome := .error .parseError,
                state := { s with errorCount := s.errorCount + 1 }, networkCalls := 1 }
    | .connError =>
        { outcome := .error .connError,
          state := { s with errorCount := s.errorCount + 1 }, networkCalls := 1 }
    | .timedOut =>
        { outcome := .error .timeout,
          state := { s with errorCount := s.errorCount + 1 }, networkCalls := 1 }

/-! ### Display Formatters

Each `console.log(a, b, ...)` call becomes one `String` in the returned
list (arguments joined by single spaces, values displayed by JS string
coercion, `undefined` for missing properties).  `logDebug` output is
omitted from the model: it is gated on the debug flag and no claim
concerns it.  The formatters are functions of the payload only — they
never touch `ApiState` — except that `printFilmsData` additionally
returns the payload object as it stands after the call, because
`filmsData.results.sort(...)` sorts the `results` array in place. -/

/-- JS strict equality test `v === 'lit'` of a possibly-undefined value
against a string literal. -/
def isStrEq (v : Option Json) (lit : String) : Bool :=
  match v with
  | some (.str s) => s = lit
  | _ => false

/-- Display of one `console.log` argument (`undefined` when absent). -/
def jsDisplay : Option Json → String
  | none => "undefined"
  | some v => jsToString v

/-- `printCharacterData` (`src/swapi.js` lines 68-76). -/
def printCharacterData (characterData : Json) : List String :=
  ["Character: " ++ jsDisplay (characterData.get "name"),
   "Height: " ++ jsDisplay (characterData.get "height"),
   "Mass: " ++ jsDisplay (characterData.get "mass"),
   "Birthday: " ++ jsDisplay (characterData.get "birth_year")] ++
  (match characterData.get "films" with
   | some (.arr films) =>
       if 0 < films.length then
         ["Appears in " ++ toString films.length ++ " films"]
       else []
   | _ => [])

/-- Lines for the starship at (0-based) index `i` of the displayed slice. -/
def starshipLines (i : Nat) (starship : Json) : List String :=
  ["\nStarship " ++ toString (i + 1) ++ ":",
   "Name: " ++ jsDisplay (starship.get "name"),
   "Model: " ++ jsDisplay (starship.get "model"),
   "Manufacturer: " ++ jsDisplay (starship.get "manufacturer"),
   "Cost: " ++ (if isStrEq (starship.get "cost_in_credits") "unknown" then "unknown"
     else jsDisplay (starship.get "cost_in_credits") ++ " credits"),
   "Speed: " ++ jsDisplay (starship.get "max_atmosphering_speed"),
   "Hyperdrive Rating: " ++ jsDisplay (starship.get "hyperdrive_rating")] ++
  (match starship.get "pilots" with
   | some (.arr pilots) =>
       if 0 < pilots.length then ["Pilots: " ++ toString pilots.length] else []
   | _ => [])

/-- `printStarshipData` (`src/swapi.js` lines 78-91): displays the count,
then the first `MAX_STARSHIPS_DISPLAYED` starships (`slice(0, 3)`). -/
def printStarshipData (starshipsData : Json) : List String :=
  ("\nTotal Starships: " ++ jsDisplay (starshipsData.get "count")) ::
  (match starshipsData.get "results" with
   | some (.arr results) =>
       ((results.take MAX_STARSHIPS_DISPLAYED).enum.map
         (fun e => starshipLines e.1 e.2)).flatten
   | _ => [])

/-- `isLargeAndPopulated` from the refactored variant, identical to the
filter condition of `printLargePlanets` in `src/swapi.js` lines 95-96:
population not the string `'unknown'`, `parseInt(population)` strictly
above `MIN_POPULATION`, diameter not `'unknown'`, `parseInt(diameter)`
strictly above `MIN_DIAMETER` (comparisons with `NaN` are false). -/
def isLargeAndPopulated (planet : Json) : Bool :=
  !(isStrEq (planet.get "population") "unknown") &&
  (match jsParseInt (planet.get "population") with
   | some population => MIN_POPULATION < population
   | none => false) &&
  !(isStrEq (planet.get "diameter") "unknown") &&
  (match jsParseInt (planet.get "diameter") with
   | some diameter => MIN_DIAMETER < diameter
   | none => false)

/-- The planets the `forEach` of `printLargePlanets` prints, in order. -/
def displayedPlanets (planetsData : Json) : List Json :=
  match planetsData.get "results" with
  | some (.arr results) => results.filter isLargeAndPopulated
  | _ => []

/-- Detail lines of one displayed planet. -/
def planetLines (planet : Json) : List String :=
  (jsDisplay (planet.get "name") ++ " - Pop: " ++ jsDisplay (planet.get "population") ++
     " - Diameter: " ++ jsDisplay (planet.get "diameter") ++
     " - Climate: " ++ jsDisplay (planet.get "climate")) ::
  (match planet.get "films" with
   | some (.arr films) =>
       if 0 < films.length then
         ["  Appears in " ++ toString films.length ++ " films"]
       else []
   | _ => [])

/-- `printLargePlanets` (`src/swapi.js` lines 93-104). -/
def printLargePlanets (planetsData : Json) : List String :=
  "\nLarge populated planets:" :: ((displayedPlanets planetsData).map planetLines).flatten

/-- The comparator closure of `printFilmsData` rendered as a boolean
"comes weakly before": `new Date(a.release_date) - new Date(b.release_date) ≤ 0`.
When either date is invalid the subtraction is `NaN`, which the sort's
`SortCompare` treats as `+0` (ES2023 §23.1.3.30.2), so such pairs compare
as equal. -/
def filmLE (filmA filmB : Json) : Bool :=
  match releaseDate filmA, releaseDate filmB with
  | some dateA, some dateB => dateA ≤ dateB
  | _, _ => true

/-- The comparator as a decidable proposition, for use with Mathlib's
sort API. -/
def filmBefore (filmA filmB : Json) : Prop := filmLE filmA filmB = true

instance : DecidableRel filmBefore :=
  fun a b => inferInstanceAs (Decidable (filmLE a b = true))

/-- The array produced by `filmsData.results.sort(comparator)`.
`Array.prototype.sort` is required to be stable (ES2019), and for a
consistent comparator its result is the unique stable sort, here realised
by `List.insertionSort` (structurally recursive, hence computable by the
kernel). -/
def sortFilmResults (results : List Json) : List Json :=
  results.insertionSort filmBefore

/-- Films whose `release_date` parses to a valid date. -/
def ValidFilm : Type := {j : Json // (releaseDate j).isSome = true}

/-- The films comparator restricted to valid films, where it coincides
with comparison of the parsed dates. -/
def validBefore (a b : ValidFilm) : Prop := filmBefore a.1 b.1

instance : DecidableRel validBefore :=
  fun a b => inferInstanceAs (Decidable (filmBefore a.1 b.1))

instance : IsTrans ValidFilm validBefore := by
  constructor
  intro a b c hab hbc
  obtain ⟨da, hda⟩ := Option.isSome_iff_exists.mp a.2
  obtain ⟨db, hdb⟩ := Option.isSome_iff_exists.mp b.2
  obtain ⟨dc, hdc⟩ := Option.isSome_iff_exists.mp c.2
  unfold validBefore filmBefore filmLE at *
  rw [hda, hdb] at hab
  rw [hdb, hdc] at hbc
  rw [hda, hdc]
  simp only [decide_eq_true_eq] at hab hbc ⊢
  exact le_trans hab hbc

instance : IsTotal ValidFilm validBefore := by
  constructor
  intro a b
  obtain ⟨da, hda⟩ := Option.isSome_iff_exists.mp a.2
  obtain ⟨db, hdb⟩ := Option.isSome_iff_exists.mp b.2
  unfold validBefore filmBefore filmLE
  rw [hda, hdb]
  simp only [decide_eq_true_eq]
  exact le_total da db

/-- Lines for the film at (0-based) index `i` of the sorted order. -/
def filmLines (i : Nat) (film : Json) : List String :=
  [toString (i + 1) ++ ". " ++ jsDisplay (film.get "title") ++
     " (" ++ jsDisplay (film.get "release_date") ++ ")",
   "   Director: " ++ jsDisplay (film.get "director"),
   "   Producer: " ++ jsDisplay (film.get "producer"),
   "   Characters: " ++ (match film.get "characters" with
     | some (.arr characters) => toString characters.length
     | _ => "undefined"),
   "   Planets: " ++ (match film.get "planets" with
     | some (.arr planets) => toString planets.length
     | _ => "undefined")]

/-- `printFilmsData` (`src/swapi.js` lines 106-116).  Returns the output
lines and the payload object as it stands after the call:
`filmsData.results.sort(...)` sorts the `results` array **in place**, so
the payload (and through aliasing the cache entry holding it) now carries
the sorted array.  (When `results` is not an array the JS code would
throw a `TypeError`; no payload of this service has that shape and no
claim reaches it, so the model returns the payload unchanged there.) -/
def printFilmsData (filmsData : Json) : List String × Json :=
  match filmsData.get "results" with
  | some (.arr results) =>
      let sortedFilms := sortFilmResults results
      ("\nStar Wars Films in chronological order:" ::
         (sortedFilms.enum.map (fun e => filmLines e.1 e.2)).flatten,
       filmsData.set "results" (.arr sortedFilms))
  | _ => (["\nStar Wars Films in chronological order:"], filmsData)

/-- `printVehicleData` (`src/swapi.js` lines 118-127). -/
def printVehicleData (vehicleData : Json) : List String :=
  ["\nFeatured Vehicle:",
   "Name: " ++ jsDisplay (vehicleData.get "name"),
   "Model: " ++ jsDisplay (vehicleData.get "model"),
   "Manufacturer: " ++ jsDisplay (vehicleData.get "manufacturer"),
   "Cost: " ++ jsDisplay (vehicleData.get "cost_in_credits") ++ " credits",
   "Length: " ++ jsDisplay (vehicleData.get "length"),
   "Crew Required: " ++ jsDisplay (vehicleData.get "crew"),
   "Passengers: " ++ jsDisplay (vehicleData.get "passengers")]

/-! ### The Orchestrator -/

/-- The five fetch-and-display steps of one Orchestrator run, in order. -/
inductive Step where
  | character
  | starships
  | planets
  | films
  | vehicle
deriving Repr, DecidableEq

/-- The steps in their source order. -/
def stepsOrder : List Step :=
  [.character, .starships, .planets, .films, .vehicle]

/-- `totalDataSize += JSON.stringify(data).length`. -/
def addPayloadSize (s : ApiState) (data : Json) : ApiState :=
  { s with totalDataSize := s.totalDataSize + (Json.stringify data).length }

/-- Result of one `fetchAndDisplayStarWarsData()` run: the module state
when the promise settles, the steps whose Display Formatter ran, the
console output (debug logging omitted), the resource paths passed to
`fetchFromApi` in order, the number of network requests issued, and —
when a fetch rejected — the 1-indexed failing step with its error.  The
run itself always resolves (the `catch` swallows every error), which the
model reflects by `fetchAndDisplayStarWarsData` being a total function
into this structure. -/
structure RunResult where
  state : ApiState
  displayed : List Step
  output : List String
  fetchesAttempted : List String
  networkCalls : Nat
  failure : Option (Nat × FetchError)

/-- The `catch` handler (`src/swapi.js` lines 167-170):
`console.error('Error:', error.message)` and one more `errorCount++`. -/
def abortRun (s : ApiState) (displayed : List Step) (output : List String)
    (attempted : List String) (ncalls : Nat) (stepIdx : Nat) (e : FetchError) : RunResult :=
  { state := { s with errorCount := s.errorCount + 1 },
    displayed := displayed,
    output := output ++ ["Error: " ++ e.message],
    fetchesAttempted := attempted,
    networkCalls := ncalls,
    failure := some (stepIdx, e) }

/-- Shallow embedding of `fetchAndDisplayStarWarsData`
(`src/swapi.js` lines 137-171).  Strictly sequential awaits; the first
rejection jumps to the `catch` handler; after the films display the cache
entry for `"films/"` is the same object as the displayed payload, so the
in-place sort performed by `printFilmsData` is written back to the cache;
the vehicle step runs only while `lastCharacterId ≤
MAX_VEHICLE_CHARACTER_ID`, and the cursor advances only after the vehicle
fetch resolves. -/
def fetchAndDisplayStarWarsData (net : String → NetResponse) (s0 : ApiState) : RunResult :=
  let s1 : ApiState := { s0 with apiCallCount := s0.apiCallCount + 1 }
  let charPath := "people/" ++ toString s1.lastCharacterId
  let r1 := fetchFromApi net charPath s1
  match r1.outcome with
  | .error e => abortRun r1.state [] [] [charPath] r1.networkCalls 1 e
  | .ok characterData =>
    let s2 := addPayloadSize r1.state characterData
    let out1 := printCharacterData characterData
    let n1 := r1.networkCalls
    let r2 := fetchFromApi net "starships/?page=1" s2
    match r2.outcome with
    | .error e =>
        abortRun r2.state [.character] out1 [charPath, "starships/?page=1"] (n1 + r2.networkCalls) 2 e
    | .ok starshipsData =>
      let s3 := addPayloadSize r2.state starshipsData
      let out2 := out1 ++ printStarshipData starshipsData
      let n2 := n1 + r2.networkCalls
      let r3 := fetchFromApi net "planets/?page=1" s3
      match r3.outcome with
      | .error e =>
          abortRun r3.state [.character, .starships] out2
            [charPath, "starships/?page=1", "planets/?page=1"] (n2 + r3.networkCalls) 3 e
      | .ok planetsData =>
        let s4 := addPayloadSize r3.state planetsData
        let out3 := out2 ++ printLargePlanets planetsData
        let n3 := n2 + r3.networkCalls
        let r4 := fetchFromApi net "films/" s4
        match r4.outcome with
        | .error e =>
            abortRun r4.state [.character, .starships, .planets] out3
              [charPath, "starships/?page=1", "planets/?page=1", "films/"]
              (n3 + r4.networkCalls) 4 e
        | .ok filmsData =>
          let s5 := addPayloadSize r4.state filmsData
          let filmsOut := printFilmsData filmsData
          let s5' := { s5 with apiCache := cacheStore s5.apiCache "films/" filmsOut.2 }
          let out4 := out3 ++ filmsOut.1
          let n4 := n3 + r4.networkCalls
          if s5'.lastCharacterId ≤ MAX_VEHICLE_CHARACTER_ID then
            let vehPath := "vehicles/" ++ toString s5'.lastCharacterId
            let r5 := fetchFromApi net vehPath s5'
            match r5.outcome with
            | .error e =>
                abortRun r5.state [.character, .starships, .planets, .films] out4
                  [charPath, "starships/?page=1", "planets/?page=1", "films/", vehPath]
                  (n4 + r5.networkCalls) 5 e
            | .ok vehicleData =>
              let s6 := addPayloadSize r5.state vehicleData
              let out5 := out4 ++ printVehicleData vehicleData
              { state := { s6 with lastCharacterId := s6.lastCharacterId + 1 },
                displayed := stepsOrder,
                output := out5,
                fetchesAttempted :=
                  [charPath, "starships/?page=1", "planets/?page=1", "films/", vehPath],
                networkCalls := n4 + r5.networkCalls,
                failure := none }
          else
            { state := s5',
              displayed := [.character, .starships, .planets, .films],
              output := out4,
              fetchesAttempted := [charPath, "starships/?page=1", "planets/?page=1", "films/"],
              networkCalls := n4,
              failure := none }

/-! ### Concrete services used by witnesses and counterexamples -/

/-- A service that replies 200 with a body parsing to JSON `null`. -/
def netNull : String → NetResponse := fun _ => .reply 200 (some .null)

/-- A service that replies 200 with a malformed (unparseable) body. -/
def netBadJson : String → NetResponse := fun _ => .reply 200 none

/-- A minimal healthy payload: an object with an empty `results` array. -/
def sampleObj : Json := .obj [("results", .arr [])]

/-- A service that replies 200 with `sampleObj` for every path. -/
def netSample : String → NetResponse := fun _ => .reply 200 (some sampleObj)

/-- A service that returns a simulated HTTP 500 for `"people/1"` and a
healthy payload for every other path. -/
def net500 : String → NetResponse :=
  fun p => if p = "people/1" then .reply 500 none else .reply 200 (some sampleObj)

/-- A service that fails with a connection error on `"vehicles/1"` only. -/
def netVehicleFail : String → NetResponse :=
  fun p => if p = "vehicles/1" then .connError else .reply 200 (some sampleObj)

/-- The module state after `n` orchestrator runs from module load. -/
def runN (net : String → NetResponse) : Nat → ApiState
  | 0 => initState
  | n + 1 => (fetchAndDisplayStarWarsData net (runN net n)).state

/-- A state whose cursor has already passed the vehicle bound. -/
def stateAtId5 : ApiState := { initState with lastCharacterId := 5 }

/-- The state after warming the cache for `"films/"` against `netSample`. -/
def cachedFilmsState : ApiState := (fetchFromApi netSample "films/" initState).state

/-- A state whose cache holds the falsy value `0` under `"films/"`. -/
def falsyFilmsState : ApiState :=
  { initState with apiCache := [("films/", Json.num 0)] }

/-- A planet whose population is exactly one billion. -/
def borderlinePlanet : Json :=
  .obj [("name", .str "Borderline"), ("population", .str "1000000000"),
        ("diameter", .str "12500"), ("climate", .str "arid")]

/-- A planet whose population is the string `"unknown"`. -/
def unknownPlanet : Json :=
  .obj [("name", .str "Mystery"), ("population", .str "unknown"),
        ("diameter", .str "999999")]

/-- A planets payload holding both sample planets. -/
def samplePlanetsData : Json :=
  .obj [("results", .arr [borderlinePlanet, unknownPlanet])]

/-- The parsed release date of the first film of a payload's `results`. -/
def headReleaseDate (j : Json) : Option Int :=
  match j.get "results" with
  | some (.arr (film :: _)) => releaseDate film
  | _ => none

/-- Episode IV sample film. -/
def filmANewHope : Json :=
  .obj [("title", .str "A New Hope"), ("release_date", .str "1977-05-25")]

/-- Episode V sample film. -/
def filmEmpire : Json :=
  .obj [("title", .str "The Empire Strikes Back"), ("release_date", .str "1980-05-17")]

/-- A films payload listing the films out of release order. -/
def unsortedFilmsData : Json := .obj [("results", .arr [filmEmpire, filmANewHope])]

/-- A film sharing Empire's release date (for exercising stability). -/
def filmTwin : Json :=
  .obj [("title", .str "Empire Twin"), ("release_date", .str "1980-05-17")]

/-- A concrete films list holding a tie and an out-of-order earlier film. -/
def sampleFilms : List Json := [filmEmpire, filmTwin, filmANewHope]

/-! ### Helper lemmas about the association-list store -/

theorem lookup_map_store_self (k : String) (v : Json) :
    ∀ (l : List (String × Json)), l.any (fun e => e.1 = k) = true →
      (l.map (fun e => if e.1 = k then (k, v) else e)).lookup k = some v := by
  intro l
  induction l with
  | nil => simp
  | cons e t ih =>
    obtain ⟨k0, v0⟩ := e
    intro hany
    by_cases he : k0 = k
    · subst he
      simp [List.lookup_cons]
    · have ht : t.any (fun e => e.1 = k) = true := by simpa [he] using hany
      have hb : (k == k0) = false := beq_eq_false_iff_ne.mpr (Ne.symm he)
      simp [List.lookup_cons, he, hb, ih ht]

theorem lookup_map_store_ne (k k' : String) (v : Json) (hne : k' ≠ k) :
    ∀ (l : List (String × Json)),
      (l.map (fun e => if e.1 = k then (k, v) else e)).lookup k' = l.lookup k' := by
  intro l
  induction l with
  | nil => simp
  | cons e t ih =>
    obtain ⟨k0, v0⟩ := e
    by_cases he : k0 = k
    · subst he
      have hb : (k' == k0) = false := beq_eq_false_iff_ne.mpr hne
      simp [List.lookup_cons, hb, ih]
    · simp [List.lookup_cons, he, ih]

theorem lookup_append_single_self (k : String) (v : Json)
    (l : List (String × Json)) (hany : ∀ (x : Json), (k, x) ∉ l) :
    (l ++ [(k, v)]).lookup k = some v := by
  have hnone : l.lookup k = none := by
    rw [List.lookup_eq_none_iff]
    intro p hp
    obtain ⟨a, b⟩ := p
    have : ¬ a = k := fun h => hany b (h ▸ hp)
    simpa using Ne.symm this
  rw [List.lookup_append, hnone]
  simp [List.lookup_cons]

theorem lookup_append_single_ne (k k' : String) (v : Json) (hne : k' ≠ k)
    (l : List (String × Json)) : (l ++ [(k, v)]).lookup k' = l.lookup k' := by
  have hb : (k' == k) = false := beq_eq_false_iff_ne.mpr hne
  rw [List.lookup_append]
  simp [List.lookup_cons, hb]

/-- Storing under a key makes that key look up to the stored value,
whether or not the key was present before. -/
theorem lookup_storeAssoc_self (l : List (String × Json)) (k : String) (v : Json) :
    (storeAssoc l k v).lookup k = some v := by
  unfold storeAssoc
  by_cases hany : l.any (fun e => e.1 = k)
  · rw [if_pos hany]
    exact lookup_map_store_self k v l hany
  · rw [if_neg hany]
    exact lookup_append_single_self k v l (by simpa using hany)

/-- Storing under a key leaves every other key's lookup unchanged. -/
theorem lookup_storeAssoc_ne (l : List (String × Json)) (k k' : String) (v : Json)
    (hne : k' ≠ k) : (storeAssoc l k v).lookup k' = l.lookup k' := by
  unfold storeAssoc
  by_cases hany : l.any (fun e => e.1 = k)
  · rw [if_pos hany]
    exact lookup_map_store_ne k k' v hne l
  · rw [if_neg hany]
    exact lookup_append_single_ne k k' v hne l

/-! ### Helper lemmas about `fetchFromApi` -/

/-- A fetch never touches the cursor. -/
theorem fetchFromApi_lastCharacterId (net : String → NetResponse) (p : String) (s : ApiState) :
    (fetchFromApi net p s).state.lastCharacterId = s.lastCharacterId := by
  unfold fetchFromApi
  by_cases hc : isCached s p
  · simp [hc]
  · cases net p with
    | reply statusCode body =>
        by_cases hcode : HTTP_ERROR_THRESHOLD ≤ statusCode
        · simp [hc, hcode]
        · cases body <;> simp [hc, hcode]
    | connError => simp [hc]
    | timedOut => simp [hc]

/-- A fetch that resolves leaves `errorCount` unchanged. -/
theorem fetchFromApi_errorCount_ok (net : String → NetResponse) (p : String) (s : ApiState)
    (v : Json) (h : (fetchFromApi net p s).outcome = .ok v) :
    (fetchFromApi net p s).state.errorCount = s.errorCount := by
  unfold fetchFromApi at h ⊢
  by_cases hc : isCached s p
  · simp [hc]
  · cases hnet : net p with
    | reply statusCode body =>
        by_cases hcode : HTTP_ERROR_THRESHOLD ≤ statusCode
        · simp [hc, hnet, hcode] at h
        · cases body <;> simp [hc, hnet, hcode] at h ⊢
    | connError => simp [hc, hnet] at h
    | timedOut => simp [hc, hnet] at h

/-- A fetch that rejects increments `errorCount` exactly once. -/
theorem fetchFromApi_errorCount_error (net : String → NetResponse) (p : String) (s : ApiState)
    (e : FetchError) (h : (fetchFromApi net p s).outcome = .error e) :
    (fetchFromApi net p s).state.errorCount = s.errorCount + 1 := by
  unfold fetchFromApi at h ⊢
  by_cases hc : isCached s p
  · simp [hc] at h
  · cases hnet : net p with
    | reply statusCode body =>
        by_cases hcode : HTTP_ERROR_THRESHOLD ≤ statusCode
        · simp [hc, hnet, hcode]
        · cases body <;> simp [hc, hnet, hcode] at h ⊢
    | connError => simp [hc, hnet]
    | timedOut => simp [hc, hnet]

/-! ### Claims C1, C7, C9: the Fetcher and its cache -/

/-- **C1, counterexample.** With a service whose `"films/"` body parses to
JSON `null`, the first `fetch("films/")` succeeds and inserts `null` into
the cache — yet the next `fetch("films/")` of the same process issues a
fresh network request (`networkCalls = 1`, not 0), because the guard
`if (apiCache[resourcePath])` tests truthiness and `null` is falsy.  This
refutes the claim's "every subsequent fetch(P) ... without issuing a new
network request" as universally stated. -/
theorem C1_counterexample :
    (fetchFromApi netNull "films/" initState).outcome = .ok .null ∧
    cacheLookup (fetchFromApi netNull "films/" initState).state.apiCache "films/" =
      some .null ∧
    (fetchFromApi netNull "films/"
      (fetchFromApi netNull "films/" initState).state).networkCalls = 1 :=
  ⟨rfl, rfl, rfl⟩

/-- **C1, amended.** The claim holds for every path whose parsed value is
truthy (any JSON object or array, in particular every payload this
service returns): (1) a first successful fetch of an uncached path stores
the parsed value under the path; (2) whenever the cache holds a truthy
value under a path, `fetch` of that path returns exactly that value,
issues no network request, and leaves the whole module state — cache,
counters, cursor — unchanged (hence no overwrite and no byte-counter
change). -/
theorem C1_amended_cache_round_trip :
    (∀ (net : String → NetResponse) (path : String) (s : ApiState) (code : Nat) (v : Json),
       isCached s path = false → net path = .reply code (some v) →
       code < HTTP_ERROR_THRESHOLD →
       (fetchFromApi net path s).outcome = .ok v ∧
       cacheLookup (fetchFromApi net path s).state.apiCache path = some v) ∧
    (∀ (net : String → NetResponse) (path : String) (s : ApiState) (v : Json),
       cacheLookup s.apiCache path = some v → v.truthy = true →
       (fetchFromApi net path s).outcome = .ok v ∧
       (fetchFromApi net path s).state = s ∧
       (fetchFromApi net path s).networkCalls = 0) := by
  constructor
  · intro net path s code v hmiss hnet hcode
    have hle : ¬ HTTP_ERROR_THRESHOLD ≤ code := Nat.not_le.mpr hcode
    unfold fetchFromApi
    rw [hnet]
    simp [hmiss, hle, cacheLookup, cacheStore, lookup_storeAssoc_self]
  · intro net path s v hsome htruthy
    have hc : isCached s path = true := by
      unfold isCached
      rw [hsome]
      exact htruthy
    unfold fetchFromApi
    rw [if_pos hc]
    exact ⟨by simp [hsome], rfl, rfl⟩

/-- Witness for the amended C1 at concrete inputs. -/
theorem C1_amended_witness :
    ((fetchFromApi netSample "films/" initState).outcome = .ok sampleObj ∧
     cacheLookup (fetchFromApi netSample "films/" initState).state.apiCache "films/" =
       some sampleObj) ∧
    ((fetchFromApi netSample "films/" cachedFilmsState).outcome = .ok sampleObj ∧
     (fetchFromApi netSample "films/" cachedFilmsState).state = cachedFilmsState ∧
     (fetchFromApi netSample "films/" cachedFilmsState).networkCalls = 0) :=
  ⟨C1_amended_cache_round_trip.1 netSample "films/" initState 200 sampleObj rfl rfl
     (by decide),
   C1_amended_cache_round_trip.2 netSample "films/" cachedFilmsState sampleObj rfl rfl⟩

/-- **C7.** A fetch whose body fails to parse as JSON rejects with the
Parse error, leaves the cache exactly as it was (no entry inserted), and
increments the global error counter exactly once inside the Fetcher. -/
theorem C7_parse_failure (net : String → NetResponse) (path : String) (s : ApiState)
    (code : Nat) (hmiss : isCached s path = false) (hnet : net path = .reply code none)
    (hcode : code < HTTP_ERROR_THRESHOLD) :
    (fetchFromApi net path s).outcome = .error .parseError ∧
    (fetchFromApi net path s).state.apiCache = s.apiCache ∧
    (fetchFromApi net path s).state.errorCount = s.errorCount + 1 := by
  have hle : ¬ HTTP_ERROR_THRESHOLD ≤ code := Nat.not_le.mpr hcode
  unfold fetchFromApi
  rw [hnet]
  simp [hmiss, hle]

/-- Witness for C7 at concrete inputs. -/
theorem C7_witness :
    isCached initState "people/1" = false ∧
    ((fetchFromApi netBadJson "people/1" initState).outcome = .error .parseError ∧
     (fetchFromApi netBadJson "people/1" initState).state.apiCache = initState.apiCache ∧
     (fetchFromApi netBadJson "people/1" initState).state.errorCount =
       initState.errorCount + 1) :=
  ⟨rfl, C7_parse_failure netBadJson "people/1" initState 200 rfl rfl (by decide)⟩

/-- **C9.** Cache presence is decided by truthiness of the stored value:
when the cached value under a path is falsy, a fetch of that path takes
the miss path, issues a network request, and on success overwrites the
existing entry with the freshly parsed value. -/
theorem C9_falsy_cache_overwrite (net : String → NetResponse) (path : String) (s : ApiState)
    (v w : Json) (code : Nat)
    (hsome : cacheLookup s.apiCache path = some v) (hfalsy : v.truthy = false)
    (hnet : net path = .reply code (some w)) (hcode : code < HTTP_ERROR_THRESHOLD) :
    (fetchFromApi net path s).networkCalls = 1 ∧
    (fetchFromApi net path s).outcome = .ok w ∧
    cacheLookup (fetchFromApi net path s).state.apiCache path = some w := by
  have hc : isCached s path = false := by
    unfold isCached
    rw [hsome]
    exact hfalsy
  have hle : ¬ HTTP_ERROR_THRESHOLD ≤ code := Nat.not_le.mpr hcode
  unfold fetchFromApi
  rw [hnet]
  simp [hc, hle, cacheLookup, cacheStore, lookup_storeAssoc_self]

/-- Witness for C9 at concrete inputs. -/
theorem C9_witness :
    cacheLookup falsyFilmsState.apiCache "films/" = some (Json.num 0) ∧
    (Json.num 0).truthy = false ∧
    ((fetchFromApi netSample "films/" falsyFilmsState).networkCalls = 1 ∧
     (fetchFromApi netSample "films/" falsyFilmsState).outcome = .ok sampleObj ∧
     cacheLookup (fetchFromApi netSample "films/" falsyFilmsState).state.apiCache "films/" =
       some sampleObj) :=
  ⟨rfl, rfl,
   C9_falsy_cache_overwrite netSample "films/" falsyFilmsState (Json.num 0) sampleObj 200
     rfl rfl rfl (by decide)⟩

/-! ### Claim C5: the planets filter -/

/-- A displayed planet passes `isLargeAndPopulated`. -/
theorem mem_displayedPlanets (planetsData planet : Json)
    (h : planet ∈ displayedPlanets planetsData) : isLargeAndPopulated planet = true := by
  unfold displayedPlanets at h
  split at h
  · exact (List.mem_filter.mp h).2
  · simp at h

/-- Decomposition of the filter condition into its numeric content. -/
theorem isLargeAndPopulated_spec (planet : Json) (h : isLargeAndPopulated planet = true) :
    (∃ population, jsParseInt (planet.get "population") = some population ∧
       MIN_POPULATION < population) ∧
    (∃ diameter, jsParseInt (planet.get "diameter") = some diameter ∧
       MIN_DIAMETER < diameter) := by
  unfold isLargeAndPopulated at h
  simp only [Bool.and_eq_true] at h
  obtain ⟨⟨⟨hA, hB⟩, hC⟩, hD⟩ := h
  constructor
  · cases hp : jsParseInt (planet.get "population") with
    | none =>
        rw [hp] at hB
        exact absurd hB (by simp)
    | some population =>
        rw [hp] at hB
        exact ⟨population, rfl, of_decide_eq_true hB⟩
  · cases hd : jsParseInt (planet.get "diameter") with
    | none =>
        rw [hd] at hD
        exact absurd hD (by simp)
    | some diameter =>
        rw [hd] at hD
        exact ⟨diameter, rfl, of_decide_eq_true hD⟩

/-- **C5.** A planet is included in the planets display only if its
population parses (`parseInt`) to a number strictly above
`MIN_POPULATION` = 1,000,000,000 and its diameter parses to a number
strictly above `MIN_DIAMETER` = 10,000; in particular a planet whose
population parses to exactly 1,000,000,000 is excluded, and a planet
whose population is the string `"unknown"` is excluded regardless of its
diameter. -/
theorem C5_planets_filter :
    (∀ (planetsData planet : Json), planet ∈ displayedPlanets planetsData →
       (∃ population, jsParseInt (planet.get "population") = some population ∧
          MIN_POPULATION < population) ∧
       (∃ diameter, jsParseInt (planet.get "diameter") = some diameter ∧
          MIN_DIAMETER < diameter)) ∧
    (∀ (planetsData planet : Json),
       jsParseInt (planet.get "population") = some MIN_POPULATION →
       planet ∉ displayedPlanets planetsData) ∧
    (∀ (planetsData planet : Json), planet.get "population" = some (.str "unknown") →
       planet ∉ displayedPlanets planetsData) := by
  refine ⟨?_, ?_, ?_⟩
  · intro planetsData planet h
    exact isLargeAndPopulated_spec planet (mem_displayedPlanets planetsData planet h)
  · intro planetsData planet hpop hmem
    obtain ⟨⟨population, hp, hlt⟩, -⟩ :=
      isLargeAndPopulated_spec planet (mem_displayedPlanets planetsData planet hmem)
    rw [hpop] at hp
    cases hp
    exact lt_irrefl _ hlt
  · intro planetsData planet hpop hmem
    have h := mem_displayedPlanets planetsData planet hmem
    unfold isLargeAndPopulated at h
    rw [hpop] at h
    simp [isStrEq] at h

/-- Witness for C5 at concrete inputs. -/
theorem C5_witness :
    jsParseInt (borderlinePlanet.get "population") = some MIN_POPULATION ∧
    unknownPlanet.get "population" = some (.str "unknown") ∧
    borderlinePlanet ∉ displayedPlanets samplePlanetsData ∧
    unknownPlanet ∉ displayedPlanets samplePlanetsData :=
  ⟨by decide, rfl,
   C5_planets_filter.2.1 samplePlanetsData borderlinePlanet (by decide),
   C5_planets_filter.2.2 samplePlanetsData unknownPlanet rfl⟩

/-! ### Claim C8: formatter purity and the films in-place sort -/

/-- Setting a field on an object makes that field read back the value. -/
theorem get_set_self (fields : List (String × Json)) (k : String) (v : Json) :
    ((Json.obj fields).set k v).get k = some v := by
  unfold Json.set Json.get
  exact lookup_storeAssoc_self fields k v

/-- Setting a field on an object leaves every other field unchanged. -/
theorem get_set_ne (fields : List (String × Json)) (k k' : String) (v : Json)
    (hne : k' ≠ k) : ((Json.obj fields).set k v).get k' = (Json.obj fields).get k' := by
  unfold Json.set Json.get
  exact lookup_storeAssoc_ne fields k k' v hne

/-- **C8, counterexample.** Formatting a films payload whose `results`
are out of release order mutates the payload object: after
`printFilmsData` the payload differs from the one passed in (its
`results` array has been reordered in place by
`filmsData.results.sort(...)`).  This refutes "does not modify the
payload object it is given". -/
theorem C8_counterexample : (printFilmsData unsortedFilmsData).2 ≠ unsortedFilmsData :=
  fun h => absurd (congrArg headReleaseDate h) (by decide)

/-- **C8, amended.** Every Display Formatter leaves the module state —
cache and counters — untouched (in the model they are functions of the
payload alone), and every formatter except the films one is pure; the
films formatter sorts the payload's `results` array in place: afterwards
the payload's `results` field holds exactly the sorted array (a
permutation of the original), while every other field of the payload is
unchanged. -/
theorem C8_amended_films_inplace_sort (filmsData : Json) (films : List Json)
    (h : filmsData.get "results" = some (.arr films)) :
    (printFilmsData filmsData).2.get "results" = some (.arr (sortFilmResults films)) ∧
    (sortFilmResults films).Perm films ∧
    ∀ k, k ≠ "results" → (printFilmsData filmsData).2.get k = filmsData.get k := by
  cases filmsData
  case obj fields =>
    have h2 : (printFilmsData (Json.obj fields)).2
        = (Json.obj fields).set "results" (.arr (sortFilmResults films)) := by
      simp only [printFilmsData, h]
    have hperm : (sortFilmResults films).Perm films := List.perm_insertionSort filmBefore films
    refine ⟨?_, hperm, ?_⟩
    · rw [h2, get_set_self]
    · intro k hk
      rw [h2, get_set_ne _ _ _ _ hk]
  all_goals simp [Json.get] at h

/-- Witness for the amended C8 at concrete inputs. -/
theorem C8_amended_witness :
    (printFilmsData unsortedFilmsData).2.get "results" =
      some (.arr (sortFilmResults [filmEmpire, filmANewHope])) ∧
    (sortFilmResults [filmEmpire, filmANewHope]).Perm [filmEmpire, filmANewHope] ∧
    (printFilmsData unsortedFilmsData).2.get "title" = unsortedFilmsData.get "title" :=
  ⟨(C8_amended_films_inplace_sort unsortedFilmsData [filmEmpire, filmANewHope] rfl).1,
   (C8_amended_films_inplace_sort unsortedFilmsData [filmEmpire, filmANewHope] rfl).2.1,
   (C8_amended_films_inplace_sort unsortedFilmsData [filmEmpire, filmANewHope] rfl).2.2
     "title" (by decide)⟩

/-! ### Claim C6: films sorted by release date, stably -/

/-- **C6.** When every film of the payload has a parseable release date
(as every film of this service does), the films display lists the films
in non-decreasing order of parsed release date, and any two films with
equal parsed release dates keep their original relative order (the sort
is stable). -/
theorem C6_films_sorted_stable (films : List Json)
    (hvalid : ∀ f ∈ films, (releaseDate f).isSome = true) :
    (sortFilmResults films).Pairwise
      (fun a b => ∀ da db, releaseDate a = some da → releaseDate b = some db → da ≤ db) ∧
    ∀ (a b : Json) (l₁ l₂ l₃ : List Json), films = l₁ ++ a :: l₂ ++ b :: l₃ →
      releaseDate a = releaseDate b → List.Sublist [a, b] (sortFilmResults films) := by
  constructor
  · have hl : ∀ a ∈ films.attachWith (fun j => (releaseDate j).isSome = true) hvalid,
        ∀ b ∈ films.attachWith (fun j => (releaseDate j).isSome = true) hvalid,
        validBefore a b ↔ filmBefore a.1 b.1 :=
      fun a _ b _ => Iff.rfl
    have key : ((films.attachWith (fun j => (releaseDate j).isSome = true) hvalid
        |>.insertionSort validBefore).map Subtype.val) = sortFilmResults films := by
      rw [List.map_insertionSort validBefore filmBefore Subtype.val _ hl,
        List.attachWith_map_subtype_val]
      rfl
    have hs := List.sorted_insertionSort validBefore
      (films.attachWith (fun j => (releaseDate j).isSome = true) hvalid)
    have hmapped : (sortFilmResults films).Pairwise filmBefore := by
      rw [← key]
      exact List.pairwise_map.mpr hs
    refine hmapped.imp ?_
    intro a b hab da db hda hdb
    unfold filmBefore filmLE at hab
    rw [hda, hdb] at hab
    exact of_decide_eq_true hab
  · intro a b l₁ l₂ l₃ hsplit heq
    have hab : filmBefore a b := by
      unfold filmBefore filmLE
      rw [heq]
      cases releaseDate b <;> simp
    have hsub : List.Sublist [a, b] films := by
      rw [hsplit]
      have h1 : List.Sublist [b] (b :: l₃) := (List.nil_sublist l₃).cons₂ b
      have h2 : List.Sublist [b] (l₂ ++ b :: l₃) := h1.trans (List.sublist_append_right l₂ _)
      have h3 : List.Sublist [a, b] (a :: (l₂ ++ b :: l₃)) := h2.cons₂ a
      rw [List.append_assoc, List.cons_append]
      exact h3.trans (List.sublist_append_right l₁ _)
    exact List.sublist_insertionSort (List.pairwise_pair.mpr hab) hsub

/-- Witness for C6 at concrete inputs. -/
theorem C6_witness :
    (∀ f ∈ sampleFilms, (releaseDate f).isSome = true) ∧
    (sortFilmResults sampleFilms).Pairwise
      (fun a b => ∀ da db, releaseDate a = some da → releaseDate b = some db → da ≤ db) ∧
    List.Sublist [filmEmpire, filmTwin] (sortFilmResults sampleFilms) :=
  ⟨by decide,
   (C6_films_sorted_stable sampleFilms (by decide)).1,
   (C6_films_sorted_stable sampleFilms (by decide)).2 filmEmpire filmTwin
     [] [] [filmANewHope] rfl (by decide)⟩

/-! ### Claims C2, C3, C4, C10: the Orchestrator -/

/-- `addPayloadSize` only touches `totalDataSize`. -/
theorem addPayloadSize_errorCount (s : ApiState) (d : Json) :
    (addPayloadSize s d).errorCount = s.errorCount := rfl

/-- `addPayloadSize` only touches `totalDataSize`. -/
theorem addPayloadSize_lastCharacterId (s : ApiState) (d : Json) :
    (addPayloadSize s d).lastCharacterId = s.lastCharacterId := rfl

/-- **C2.** A run whose fetch at step `N` (1-indexed over character,
starships, planets, films, vehicle) rejects invokes the Display Formatter
of exactly the steps before `N` (so not step `N` nor any later step) and
attempts exactly `N` fetches (no later fetch is issued).  The run itself
still resolves: in the model `fetchAndDisplayStarWarsData` is a total
function into `RunResult`, mirroring the `catch` that swallows the
error. -/
theorem C2_run_aborts_at_first_failure (net : String → NetResponse) (s : ApiState)
    (N : Nat) (e : FetchError)
    (h : (fetchAndDisplayStarWarsData net s).failure = some (N, e)) :
    (fetchAndDisplayStarWarsData net s).displayed = stepsOrder.take (N - 1) ∧
    (fetchAndDisplayStarWarsData net s).fetchesAttempted.length = N := by
  simp only [fetchAndDisplayStarWarsData] at h ⊢
  repeat' split at h
  all_goals simp_all [abortRun, stepsOrder]
  all_goals first
    | rfl
    | (obtain ⟨hN, -⟩ := h
       subst hN
       rfl)

/-- Witness for C2: a simulated HTTP 500 on `"people/1"` fails step 1. -/
theorem C2_witness :
    (fetchAndDisplayStarWarsData net500 initState).failure =
      some (1, .httpStatus 500) ∧
    ((fetchAndDisplayStarWarsData net500 initState).displayed = stepsOrder.take (1 - 1) ∧
     (fetchAndDisplayStarWarsData net500 initState).fetchesAttempted.length = 1) :=
  ⟨rfl, C2_run_aborts_at_first_failure net500 initState 1 (.httpStatus 500) rfl⟩

/-- **C4.** When a fetch inside a run rejects with an HTTP-status error,
the global error counter grows by exactly 2 over the run: once inside the
Fetcher before the rejection surfaces, and once more in the Orchestrator's
catch handler; and the failed step's Display Formatter does not run. -/
theorem C4_http_error_double_count (net : String → NetResponse) (s : ApiState)
    (N : Nat) (c : Nat)
    (h : (fetchAndDisplayStarWarsData net s).failure = some (N, .httpStatus c)) :
    (fetchAndDisplayStarWarsData net s).state.errorCount = s.errorCount + 2 ∧
    (fetchAndDisplayStarWarsData net s).displayed = stepsOrder.take (N - 1) := by
  simp only [fetchAndDisplayStarWarsData] at h ⊢
  repeat' split at h
  all_goals simp_all [abortRun, stepsOrder, addPayloadSize_errorCount,
    fetchFromApi_errorCount_ok, fetchFromApi_errorCount_error]
  all_goals first
    | rfl
    | (obtain ⟨hN, -⟩ := h
       subst hN
       first
         | rfl
         | exact ⟨by omega, rfl⟩)

/-- Witness for C4: a simulated HTTP 500 on `"people/1"`. -/
theorem C4_witness :
    (fetchAndDisplayStarWarsData net500 initState).failure =
      some (1, .httpStatus 500) ∧
    ((fetchAndDisplayStarWarsData net500 initState).state.errorCount =
       initState.errorCount + 2 ∧
     (fetchAndDisplayStarWarsData net500 initState).displayed = stepsOrder.take (1 - 1)) :=
  ⟨rfl, C4_http_error_double_count net500 initState 1 500 rfl⟩

/-- **C10.** If the vehicle fetch of a run (step 5) rejects, the cursor is
left exactly where it was: the `lastCharacterId++` sits after the awaited
vehicle fetch, so the same vehicle is attempted on the next run. -/
theorem C10_vehicle_failure_cursor_unchanged (net : String → NetResponse) (s : ApiState)
    (e : FetchError)
    (h : (fetchAndDisplayStarWarsData net s).failure = some (5, e)) :
    (fetchAndDisplayStarWarsData net s).state.lastCharacterId = s.lastCharacterId := by
  simp only [fetchAndDisplayStarWarsData] at h ⊢
  repeat' split at h
  all_goals simp_all [abortRun, addPayloadSize_lastCharacterId, fetchFromApi_lastCharacterId]

/-- Witness for C10: a connection failure on `"vehicles/1"` fails step 5
and leaves the cursor at 1. -/
theorem C10_witness :
    (fetchAndDisplayStarWarsData netVehicleFail initState).failure = some (5, .connError) ∧
    (fetchAndDisplayStarWarsData netVehicleFail initState).state.lastCharacterId =
      initState.lastCharacterId :=
  ⟨rfl, C10_vehicle_failure_cursor_unchanged netVehicleFail initState .connError rfl⟩

/-- **C3, counterexample.** The cursor does exceed
`MAX_VEHICLE_CHARACTER_ID = 4`: after four fully successful runs from
module load it stands at 5.  (The code increments `lastCharacterId` after
the vehicle fetch whenever the value was still `≤ 4`, so from 4 it moves
to 5, which exceeds the bound; only then is the vehicle step skipped.)
This refutes "never exceeds its fixed upper bound". -/
theorem C3_counterexample :
    (runN netSample 4).lastCharacterId = 5 ∧
    MAX_VEHICLE_CHARACTER_ID < (runN netSample 4).lastCharacterId :=
  ⟨rfl, by decide⟩

/-- **C3, amended.** The cursor starts at 1, never decreases, advances by
at most 1 per run, and never exceeds `MAX_VEHICLE_CHARACTER_ID + 1 = 5`;
once it exceeds `MAX_VEHICLE_CHARACTER_ID` (i.e. stands at 5), the
vehicle step is skipped entirely — no vehicle is displayed, at most the
four other fetches are attempted — and the cursor is not advanced
further. -/
theorem C3_amended_cursor_invariants (net : String → NetResponse) (s : ApiState) :
    initState.lastCharacterId = 1 ∧
    s.lastCharacterId ≤ (fetchAndDisplayStarWarsData net s).state.lastCharacterId ∧
    (fetchAndDisplayStarWarsData net s).state.lastCharacterId ≤ s.lastCharacterId + 1 ∧
    (s.lastCharacterId ≤ MAX_VEHICLE_CHARACTER_ID + 1 →
      (fetchAndDisplayStarWarsData net s).state.lastCharacterId ≤
        MAX_VEHICLE_CHARACTER_ID + 1) ∧
    (MAX_VEHICLE_CHARACTER_ID < s.lastCharacterId →
      (fetchAndDisplayStarWarsData net s).state.lastCharacterId = s.lastCharacterId ∧
      Step.vehicle ∉ (fetchAndDisplayStarWarsData net s).displayed ∧
      (fetchAndDisplayStarWarsData net s).fetchesAttempted.length ≤ 4) := by
  simp only [fetchAndDisplayStarWarsData]
  repeat' split
  all_goals simp_all [abortRun, stepsOrder, addPayloadSize_lastCharacterId,
    fetchFromApi_lastCharacterId, MAX_VEHICLE_CHARACTER_ID, initState]

/-- Witness for the amended C3 at a cursor already past the bound. -/
theorem C3_amended_witness :
    (fetchAndDisplayStarWarsData netSample stateAtId5).state.lastCharacterId =
      stateAtId5.lastCharacterId ∧
    Step.vehicle ∉ (fetchAndDisplayStarWarsData netSample stateAtId5).displayed ∧
    (fetchAndDisplayStarWarsData netSample stateAtId5).fetchesAttempted.length ≤ 4 :=
  (C3_amended_cursor_invariants netSample stateAtId5).2.2.2.2 (by decide)

end Swapi
